import Mathlib

/-!
Shallow embedding of the notes single-page client
(src/notes_frontend/src/routes/+page.svelte).

The script part of the page defines a `Note` record, mutable view-model
state (`notes`, `loading`, `saving`, `deletingId`, `selectedId`,
`formTitle`, `formContent`, `errorMessage`), a gateway helper `api`, and
the operations `loadNotes`, `startCreate`, `startEdit`, `save`,
`deleteNote`.

Modelling choices:
* Timestamps (`createdAt`, `updatedAt`) are modelled as `Int`, standing
  for the epoch milliseconds produced by `new Date(x).getTime()`; the
  sort comparator only ever uses these parsed values.
* Each async operation is modelled as a pure state transformer that
  additionally receives the outcome of the single awaited gateway call
  as an `Except Thrown _` argument (the runtime serializes handlers, so
  within one operation the call result is the only external input).
* `save` also returns the gateway call it issued, if any, so that
  "no network request on validation failure" is expressible.
* A JavaScript caught value `e` is either an `Error` carrying a message
  (`Thrown.error`) or some other thrown value (`Thrown.other`), matching
  the `e instanceof Error ? e.message : fallback` pattern.
-/

/-- The `Note` record of the page: id, title, content and the two
timestamps (modelled as parsed epoch milliseconds). -/
structure Note where
  id : String
  title : String
  content : String
  createdAt : Int
  updatedAt : Int
deriving Repr, DecidableEq

/-- An HTTP response as the `api` helper observes it: its status code and
the body text (`""` both for an empty body and when reading the body
text fails, mirroring `res.text().catch(() => "")`). -/
structure HttpResponse where
  status : Nat
  bodyText : String
deriving Repr, DecidableEq

/-- The `res.ok` predicate of fetch: status in the 2xx success range. -/
def resOk (status : Nat) : Bool :=
  (200 ≤ status) && (status ≤ 299)

/-- Message of the error thrown on a non-ok response:
`text || "Request failed: " + status` (the body text when non-empty,
else the generic status-coded fallback). -/
def requestFailedMessage (bodyText : String) (status : Nat) : String :=
  if bodyText = "" then "Request failed: " ++ toString status else bodyText

/-- Failure of the `api` helper: either the `Error` thrown on a non-ok
status (the spec calls it `RequestError`), or a JSON decode failure of
`res.json()` on a success response. -/
inductive ApiError where
  | requestError : String → ApiError
  | decodeError : ApiError
deriving Repr, DecidableEq

/-- The `api` helper: on a non-ok status throw an error built from the
body text or the generic fallback; on status 204 resolve with no payload
(`undefined`); otherwise decode the JSON body. `decode` models
`res.json()` followed by the cast to `T`. -/
def api (T : Type) (decode : String → Option T) (res : HttpResponse) :
    Except ApiError (Option T) :=
  if resOk res.status = false then
    Except.error (ApiError.requestError (requestFailedMessage res.bodyText res.status))
  else if res.status = 204 then
    Except.ok none
  else
    match decode res.bodyText with
    | some v => Except.ok (some v)
    | none => Except.error ApiError.decodeError

/-- A JavaScript thrown value as the view-model's `catch` clauses see it:
an `Error` with a message, or any other value. -/
inductive Thrown where
  | error : String → Thrown
  | other : Thrown
deriving Repr, DecidableEq

/-- The `e instanceof Error ? e.message : fallback` pattern shared by the
three catch clauses. -/
def caughtMessage (t : Thrown) (fallback : String) : String :=
  match t with
  | Thrown.error m => m
  | Thrown.other => fallback

/-- The mutable view-model state of the page. -/
structure AppState where
  notes : List Note
  loading : Bool
  saving : Bool
  deletingId : Option String
  selectedId : Option String
  formTitle : String
  formContent : String
  errorMessage : Option String
deriving Repr, DecidableEq

/-- The sort comparator `(a, b) => new Date(b.updatedAt).getTime() -
new Date(a.updatedAt).getTime()`: `a` may stay before `b` exactly when
`b.updatedAt ≤ a.updatedAt`. -/
def noteLe (a b : Note) : Bool :=
  decide (b.updatedAt ≤ a.updatedAt)

/-- The re-sort `[...notes].sort(comparator)`: a stable sort by
`updatedAt` descending. -/
def sortNotes (l : List Note) : List Note :=
  l.mergeSort noteLe

/-- Sortedness by `updatedAt` descending: every entry's `updatedAt` is
at least that of every later entry. -/
def SortedByUpdatedDesc (l : List Note) : Prop :=
  l.Pairwise (fun a b => noteLe a b = true)

instance (l : List Note) : Decidable (SortedByUpdatedDesc l) :=
  List.instDecidablePairwise l

/-- The `loadNotes` operation, given the outcome of `api("/notes")`:
sets loading and clears the error, then on success replaces the
collection, on failure sets the error message; `finally` clears
loading. -/
def loadNotes (s : AppState) (r : Except Thrown (List Note)) : AppState :=
  let s0 : AppState := { s with loading := true, errorMessage := none }
  match r with
  | Except.ok ns => { s0 with notes := ns, loading := false }
  | Except.error t =>
      { s0 with errorMessage := some (caughtMessage t "Failed to load notes"),
                loading := false }

/-- The `startCreate` operation: clear selection, form draft and error. -/
def startCreate (s : AppState) : AppState :=
  { s with selectedId := none, formTitle := "", formContent := "", errorMessage := none }

/-- The `startEdit(note)` operation: select the note and populate the
form draft from it. -/
def startEdit (s : AppState) (note : Note) : AppState :=
  { s with selectedId := some note.id, formTitle := note.title,
           formContent := note.content, errorMessage := none }

/-- JavaScript `formTitle.trim()`: drop whitespace characters from both
ends of the string. -/
def jsTrim (s : String) : String :=
  String.mk (((s.data.dropWhile Char.isWhitespace).reverse.dropWhile Char.isWhitespace).reverse)

/-- The gateway call `save` issues, when it issues one. -/
inductive GatewayCall where
  | update : String → String → String → GatewayCall
  | create : String → String → GatewayCall
deriving Repr, DecidableEq

/-- The update branch of `save` (`selectedId` truthy): on success replace
the entry whose id equals the returned note's id and re-sort; on failure
set the error message; `finally` clears saving. -/
def saveUpdate (s0 : AppState) (sel title content : String)
    (r : Except Thrown Note) : AppState × Option GatewayCall :=
  match r with
  | Except.ok updated =>
      ({ s0 with
          notes := sortNotes (s0.notes.map (fun n => if n.id = updated.id then updated else n)),
          saving := false },
       some (GatewayCall.update sel title content))
  | Except.error t =>
      ({ s0 with errorMessage := some (caughtMessage t "Failed to save note"),
                 saving := false },
       some (GatewayCall.update sel title content))

/-- The create branch of `save` (`selectedId` falsy): on success prepend
the returned note, select its id and re-sort; on failure set the error
message; `finally` clears saving. -/
def saveCreate (s0 : AppState) (title content : String)
    (r : Except Thrown Note) : AppState × Option GatewayCall :=
  match r with
  | Except.ok created =>
      ({ s0 with
          notes := sortNotes (created :: s0.notes),
          selectedId := some created.id,
          saving := false },
       some (GatewayCall.create title content))
  | Except.error t =>
      ({ s0 with errorMessage := some (caughtMessage t "Failed to save note"),
                 saving := false },
       some (GatewayCall.create title content))

/-- The `save` operation, given the outcome the gateway call would
produce: clear the error, trim the title, abort with "Title is
required." and no call when the trimmed title is empty, else run the
update branch when `selectedId` is truthy (non-null and non-empty, the
JavaScript `if (selectedId)` test) and the create branch otherwise.
Returns the new state and the gateway call issued, if any. -/
def save (s : AppState) (r : Except Thrown Note) : AppState × Option GatewayCall :=
  let s0 : AppState := { s with errorMessage := none }
  let title := jsTrim s.formTitle
  let content := s.formContent
  if title = "" then
    ({ s0 with errorMessage := some "Title is required." }, none)
  else
    match s.selectedId with
    | some sel =>
        if sel = "" then saveCreate s0 title content r
        else saveUpdate s0 sel title content r
    | none => saveCreate s0 title content r

/-- The `deleteNote(id)` operation, given the outcome of the DELETE
call: clear the error, set `deletingId`; on success filter the entry out
and, when it was selected, run `startCreate`; on failure set the error
message; `finally` clears `deletingId`. -/
def deleteNote (s : AppState) (id : String) (r : Except Thrown Unit) : AppState :=
  let s0 : AppState := { s with errorMessage := none, deletingId := some id }
  match r with
  | Except.ok _ =>
      let s1 : AppState := { s0 with notes := s0.notes.filter (fun n => n.id ≠ id) }
      let s2 : AppState := if s1.selectedId = some id then startCreate s1 else s1
      { s2 with deletingId := none }
  | Except.error t =>
      { s0 with errorMessage := some (caughtMessage t "Failed to delete note"),
                deletingId := none }

/-! ### Helper lemmas about the re-sort -/

theorem noteLe_trans (a b c : Note) : noteLe a b → noteLe b c → noteLe a c := by
  simp only [noteLe, decide_eq_true_eq]
  omega

theorem noteLe_total (a b : Note) : noteLe a b || noteLe b a := by
  simp only [noteLe, Bool.or_eq_true, decide_eq_true_eq]
  omega

theorem sortNotes_sorted (l : List Note) : SortedByUpdatedDesc (sortNotes l) :=
  List.sorted_mergeSort noteLe_trans noteLe_total l

theorem sortNotes_perm (l : List Note) : (sortNotes l).Perm l :=
  List.mergeSort_perm l noteLe

theorem length_sortNotes (l : List Note) : (sortNotes l).length = l.length :=
  (sortNotes_perm l).length_eq

theorem mem_sortNotes {a : Note} {l : List Note} : a ∈ sortNotes l ↔ a ∈ l :=
  (sortNotes_perm l).mem_iff

/-! ### Claims -/

/-- C2: when the trimmed title is empty, `save` issues no gateway call,
sets the error message to "Title is required." and leaves the collection
and the selection unchanged. -/
theorem c2_empty_title_aborts (s : AppState) (r : Except Thrown Note)
    (h : jsTrim s.formTitle = "") :
    (save s r).2 = none ∧
    (save s r).1.notes = s.notes ∧
    (save s r).1.selectedId = s.selectedId ∧
    (save s r).1.errorMessage = some "Title is required." := by
  simp [save, h]

theorem c2_witness :
    jsTrim (⟨[], false, false, none, none, "  ", "c", none⟩ : AppState).formTitle = "" ∧
    ((save ⟨[], false, false, none, none, "  ", "c", none⟩ (Except.error Thrown.other)).2 = none ∧
     (save ⟨[], false, false, none, none, "  ", "c", none⟩ (Except.error Thrown.other)).1.notes = [] ∧
     (save ⟨[], false, false, none, none, "  ", "c", none⟩
        (Except.error Thrown.other)).1.selectedId = none ∧
     (save ⟨[], false, false, none, none, "  ", "c", none⟩
        (Except.error Thrown.other)).1.errorMessage = some "Title is required.") :=
  ⟨by decide,
   c2_empty_title_aborts ⟨[], false, false, none, none, "  ", "c", none⟩
     (Except.error Thrown.other) (by decide)⟩

/-- C8: when `list()` fails, `loadNotes` sets the error message from the
failure (fallback "Failed to load notes" when the thrown value carries
no message), clears the loading flag and leaves the collection as it
was. -/
theorem c8_load_failure_frame (s : AppState) (t : Thrown) :
    (loadNotes s (Except.error t)).notes = s.notes ∧
    (loadNotes s (Except.error t)).loading = false ∧
    (loadNotes s (Except.error t)).errorMessage =
      some (caughtMessage t "Failed to load notes") := by
  simp [loadNotes]

/-- C9: `startCreate` is idempotent, and it sets the selection to none,
clears the form draft and clears the error message. -/
theorem c9_startCreate_idempotent (s : AppState) :
    startCreate (startCreate s) = startCreate s ∧
    (startCreate s).selectedId = none ∧
    (startCreate s).formTitle = "" ∧
    (startCreate s).formContent = "" ∧
    (startCreate s).errorMessage = none := by
  simp [startCreate]

/-- C1 (amended): after a `save` with a valid (non-empty trimmed) title
succeeds, the collection is sorted by updatedAt descending — both
branches re-sort; a successful `deleteNote` preserves sortedness (it
only filters the collection, without re-sorting), so after a delete the
collection is sorted whenever it was sorted beforehand. -/
theorem c1_sorted_after_save_and_delete (s : AppState) :
    (∀ r : Note, jsTrim s.formTitle ≠ "" →
      SortedByUpdatedDesc ((save s (Except.ok r)).1.notes)) ∧
    (∀ id : String, SortedByUpdatedDesc s.notes →
      SortedByUpdatedDesc ((deleteNote s id (Except.ok ())).notes)) := by
  constructor
  · intro r h
    cases hsel : s.selectedId with
    | none => simpa [save, saveCreate, h, hsel] using sortNotes_sorted _
    | some sel =>
      by_cases hs : sel = "" <;>
        simpa [save, saveCreate, saveUpdate, h, hs, hsel] using sortNotes_sorted _
  · intro id hsorted
    by_cases h : s.selectedId = some id <;>
      · simp only [deleteNote, h, startCreate, if_pos, if_neg, ite_true, ite_false]
        exact List.Pairwise.filter _ hsorted

/-- C1 counterexample: `list()` carries no sortedness guarantee, and a
successful Delete does not re-sort; deleting from an unsorted loaded
collection completes successfully with the collection still unsorted. -/
theorem c1_counterexample :
    (deleteNote
        (loadNotes ⟨[], true, false, none, none, "", "", none⟩
          (Except.ok [⟨"a", "A", "", 0, 0⟩, ⟨"b", "B", "", 0, 5⟩, ⟨"c", "C", "", 0, 3⟩]))
        "c" (Except.ok ())).errorMessage = none ∧
    ¬ SortedByUpdatedDesc
      ((deleteNote
          (loadNotes ⟨[], true, false, none, none, "", "", none⟩
            (Except.ok [⟨"a", "A", "", 0, 0⟩, ⟨"b", "B", "", 0, 5⟩, ⟨"c", "C", "", 0, 3⟩]))
          "c" (Except.ok ())).notes) := by
  decide

theorem c1_witness :
    SortedByUpdatedDesc
      ((save
          ⟨[⟨"b", "B", "", 0, 5⟩, ⟨"c", "C", "", 0, 3⟩, ⟨"a", "A", "", 0, 0⟩],
            false, false, none, none, "T", "body", none⟩
          (Except.ok ⟨"d", "D", "", 7, 7⟩)).1.notes) ∧
    SortedByUpdatedDesc
      ((deleteNote
          ⟨[⟨"b", "B", "", 0, 5⟩, ⟨"c", "C", "", 0, 3⟩, ⟨"a", "A", "", 0, 0⟩],
            false, false, none, none, "T", "body", none⟩
          "c" (Except.ok ())).notes) :=
  ⟨(c1_sorted_after_save_and_delete
      ⟨[⟨"b", "B", "", 0, 5⟩, ⟨"c", "C", "", 0, 3⟩, ⟨"a", "A", "", 0, 0⟩],
        false, false, none, none, "T", "body", none⟩).1
      ⟨"d", "D", "", 7, 7⟩ (by decide),
   (c1_sorted_after_save_and_delete
      ⟨[⟨"b", "B", "", 0, 5⟩, ⟨"c", "C", "", 0, 3⟩, ⟨"a", "A", "", 0, 0⟩],
        false, false, none, none, "T", "body", none⟩).2
      "c" (by decide)⟩

/-- C3: for the delete gateway call, a response with the empty-content
status 204 is treated as success with no decoded payload, and every
response with a non-success status produces a RequestError. -/
theorem c3_delete_response_handling (T : Type) (decode : String → Option T)
    (res : HttpResponse) :
    (res.status = 204 → api T decode res = Except.ok none) ∧
    (resOk res.status = false →
      ∃ msg, api T decode res = Except.error (ApiError.requestError msg)) := by
  constructor
  · intro h
    simp [api, h, resOk]
  · intro h
    refine ⟨requestFailedMessage res.bodyText res.status, ?_⟩
    simp [api, h]

theorem c3_witness :
    api Unit (fun _ => none) ⟨204, ""⟩ = Except.ok none ∧
    ∃ msg, api Unit (fun _ => none) ⟨404, "boom"⟩ =
      Except.error (ApiError.requestError msg) :=
  ⟨(c3_delete_response_handling Unit (fun _ => none) ⟨204, ""⟩).1 rfl,
   (c3_delete_response_handling Unit (fun _ => none) ⟨404, "boom"⟩).2 (by decide)⟩

/-- C4: when the gateway call of a `save` with a valid title fails, the
error message is set from the failure, the collection and the selection
are exactly as before the call, and the saving flag ends cleared. -/
theorem c4_save_failure_frame (s : AppState) (t : Thrown)
    (h : jsTrim s.formTitle ≠ "") :
    (save s (Except.error t)).1.notes = s.notes ∧
    (save s (Except.error t)).1.selectedId = s.selectedId ∧
    (save s (Except.error t)).1.errorMessage =
      some (caughtMessage t "Failed to save note") ∧
    (save s (Except.error t)).1.saving = false := by
  cases hsel : s.selectedId with
  | none => simp [save, saveCreate, h, hsel]
  | some sel =>
    by_cases hs : sel = "" <;> simp [save, saveCreate, saveUpdate, h, hs, hsel]

theorem c4_witness :
    jsTrim (⟨[], false, false, none, none, "T", "b", none⟩ : AppState).formTitle ≠ "" ∧
    ((save ⟨[], false, false, none, none, "T", "b", none⟩
        (Except.error (Thrown.error "boom"))).1.notes = [] ∧
     (save ⟨[], false, false, none, none, "T", "b", none⟩
        (Except.error (Thrown.error "boom"))).1.selectedId = none ∧
     (save ⟨[], false, false, none, none, "T", "b", none⟩
        (Except.error (Thrown.error "boom"))).1.errorMessage =
       some (caughtMessage (Thrown.error "boom") "Failed to save note") ∧
     (save ⟨[], false, false, none, none, "T", "b", none⟩
        (Except.error (Thrown.error "boom"))).1.saving = false) :=
  ⟨by decide,
   c4_save_failure_frame ⟨[], false, false, none, none, "T", "b", none⟩
     (Thrown.error "boom") (by decide)⟩

/-- C5: a `save` with no selection and a valid title whose create call
succeeds ends with the returned note prepended to the collection (which
is then re-sorted, so it has exactly one more entry than before) and the
selection set to the new note's identifier. -/
theorem c5_create_success (s : AppState) (created : Note)
    (hsel : s.selectedId = none) (h : jsTrim s.formTitle ≠ "") :
    (save s (Except.ok created)).1.notes = sortNotes (created :: s.notes) ∧
    (save s (Except.ok created)).1.notes.length = s.notes.length + 1 ∧
    (save s (Except.ok created)).1.selectedId = some created.id := by
  refine ⟨?_, ?_, ?_⟩ <;> simp [save, saveCreate, h, hsel, sortNotes]

theorem c5_witness :
    (save ⟨[⟨"a", "A", "", 0, 0⟩], false, false, none, none, " New ", "b", none⟩
        (Except.ok ⟨"n", "New", "b", 9, 9⟩)).1.notes =
      sortNotes (⟨"n", "New", "b", 9, 9⟩ :: [⟨"a", "A", "", 0, 0⟩]) ∧
    (save ⟨[⟨"a", "A", "", 0, 0⟩], false, false, none, none, " New ", "b", none⟩
        (Except.ok ⟨"n", "New", "b", 9, 9⟩)).1.notes.length =
      [(⟨"a", "A", "", 0, 0⟩ : Note)].length + 1 ∧
    (save ⟨[⟨"a", "A", "", 0, 0⟩], false, false, none, none, " New ", "b", none⟩
        (Except.ok ⟨"n", "New", "b", 9, 9⟩)).1.selectedId = some "n" :=
  c5_create_success ⟨[⟨"a", "A", "", 0, 0⟩], false, false, none, none, " New ", "b", none⟩
    ⟨"n", "New", "b", 9, 9⟩ rfl (by decide)

/-- C6: a successful `deleteNote id` removes the entry with that
identifier from the collection, and when that identifier was selected
the state transitions to StartCreate: selection becomes none and the
form draft is cleared. -/
theorem c6_delete_success (s : AppState) (id : String) :
    (deleteNote s id (Except.ok ())).notes = s.notes.filter (fun n => n.id ≠ id) ∧
    (∀ n ∈ (deleteNote s id (Except.ok ())).notes, n.id ≠ id) ∧
    (s.selectedId = some id →
      (deleteNote s id (Except.ok ())).selectedId = none ∧
      (deleteNote s id (Except.ok ())).formTitle = "" ∧
      (deleteNote s id (Except.ok ())).formContent = "") := by
  by_cases h : s.selectedId = some id <;>
    simp_all [deleteNote, startCreate, List.mem_filter]

theorem c6_witness :
    (deleteNote ⟨[⟨"x", "X", "", 0, 0⟩, ⟨"y", "Y", "", 0, 1⟩],
        false, false, none, some "x", "X", "", none⟩ "x" (Except.ok ())).notes =
      List.filter (fun n => n.id ≠ "x")
        [⟨"x", "X", "", 0, 0⟩, ⟨"y", "Y", "", 0, 1⟩] ∧
    (deleteNote ⟨[⟨"x", "X", "", 0, 0⟩, ⟨"y", "Y", "", 0, 1⟩],
        false, false, none, some "x", "X", "", none⟩ "x" (Except.ok ())).selectedId = none ∧
    (deleteNote ⟨[⟨"x", "X", "", 0, 0⟩, ⟨"y", "Y", "", 0, 1⟩],
        false, false, none, some "x", "X", "", none⟩ "x" (Except.ok ())).formTitle = "" ∧
    (deleteNote ⟨[⟨"x", "X", "", 0, 0⟩, ⟨"y", "Y", "", 0, 1⟩],
        false, false, none, some "x", "X", "", none⟩ "x" (Except.ok ())).formContent = "" := by
  have h := c6_delete_success ⟨[⟨"x", "X", "", 0, 0⟩, ⟨"y", "Y", "", 0, 1⟩],
    false, false, none, some "x", "X", "", none⟩ "x"
  exact ⟨h.1, (h.2.2 rfl).1, (h.2.2 rfl).2.1, (h.2.2 rfl).2.2⟩

/-- C7: every gateway call whose response status is outside the success
range fails with a RequestError whose message is the response body text
when that text is non-empty, and the generic "Request failed: <status>"
message otherwise. -/
theorem c7_request_error_message (T : Type) (decode : String → Option T)
    (res : HttpResponse) (h : resOk res.status = false) :
    api T decode res =
      Except.error (ApiError.requestError
        (if res.bodyText = "" then "Request failed: " ++ toString res.status
         else res.bodyText)) := by
  simp [api, h, requestFailedMessage]

theorem c7_witness :
    api Unit (fun _ => none) ⟨500, ""⟩ =
      Except.error (ApiError.requestError
        (if "" = "" then "Request failed: " ++ toString 500 else "")) ∧
    api Unit (fun _ => none) ⟨403, "denied"⟩ =
      Except.error (ApiError.requestError
        (if "denied" = "" then "Request failed: " ++ toString 403 else "denied")) :=
  ⟨c7_request_error_message Unit (fun _ => none) ⟨500, ""⟩ (by decide),
   c7_request_error_message Unit (fun _ => none) ⟨403, "denied"⟩ (by decide)⟩

/-- C10: the update branch of `save` replaces entries keyed on the
identifier of the note the server returned, not on the selection; when
no entry carries that identifier, a successful update leaves the
collection's membership unchanged and only re-sorts it. -/
theorem c10_update_keyed_on_returned_id (s : AppState) (updated : Note) (sel : String)
    (hsel : s.selectedId = some sel) (hne : sel ≠ "")
    (hv : jsTrim s.formTitle ≠ "")
    (hid : ∀ n ∈ s.notes, n.id ≠ updated.id) :
    (save s (Except.ok updated)).1.notes = sortNotes s.notes ∧
    (∀ n : Note, n ∈ (save s (Except.ok updated)).1.notes ↔ n ∈ s.notes) := by
  have hmap : List.map (fun n => if n.id = updated.id then updated else n) s.notes
      = s.notes := by
    conv_rhs => rw [← List.map_id s.notes]
    exact List.map_congr_left (fun a ha => by simp [hid a ha])
  refine ⟨?_, ?_⟩ <;>
    simp [save, saveUpdate, hv, hsel, hne, hmap, mem_sortNotes]

theorem c10_witness :
    (save ⟨[⟨"a", "A", "", 0, 3⟩, ⟨"b", "B", "", 0, 1⟩],
        false, false, none, some "a", "T", "c", none⟩
        (Except.ok ⟨"z", "Z", "c", 2, 9⟩)).1.notes =
      sortNotes [⟨"a", "A", "", 0, 3⟩, ⟨"b", "B", "", 0, 1⟩] ∧
    ((⟨"a", "A", "", 0, 3⟩ : Note) ∈
        (save ⟨[⟨"a", "A", "", 0, 3⟩, ⟨"b", "B", "", 0, 1⟩],
          false, false, none, some "a", "T", "c", none⟩
          (Except.ok ⟨"z", "Z", "c", 2, 9⟩)).1.notes ↔
      (⟨"a", "A", "", 0, 3⟩ : Note) ∈
        [(⟨"a", "A", "", 0, 3⟩ : Note), ⟨"b", "B", "", 0, 1⟩]) := by
  have h := c10_update_keyed_on_returned_id
    ⟨[⟨"a", "A", "", 0, 3⟩, ⟨"b", "B", "", 0, 1⟩],
      false, false, none, some "a", "T", "c", none⟩
    ⟨"z", "Z", "c", 2, 9⟩ "a" rfl (by decide) (by decide) (by decide)
  exact ⟨h.1, h.2 ⟨"a", "A", "", 0, 3⟩⟩
